import Mathlib

/-
  Verification development for the JudgeSense-SDP crawler suite.

  This file shallowly embeds the resilient paginated crawl loop of the
  repository: checkpoint reading (`get_last_page` in selenium_crawler2.py,
  selenium_test.py and apitest_single.py), durable batch writes
  (`save_to_csv`), the bounded retry loops with growing delays
  (`get_case_list`, `get_explanation` in apitest_single.py), the concurrent
  detail-fetch pool (`process_case_batch`), the CAPTCHA recovery wait
  (`wait_for_captcha_solution`) and the main crawl loops of
  selenium_crawler2.py and selenium_test.py.

  External effects are modelled by oracles passed in as explicit data:
  the block detector is a stream of booleans consulted one index per check,
  HTTP and DOM fetch outcomes are per-attempt outcome streams, the pandas CSV
  state is an inductive `CsvFile`, and the cooperative terminate flag is a
  stream of sampled values.  Python functions that catch all exceptions are
  embedded as total functions; the caught-and-logged failure branches appear
  as explicit constructors or flags.
-/

/-- One extracted case row, with the exact column set written by every
crawler variant: Court Name, Case Number, Decision Number, Decision Date,
Status, Explanation, Page. -/
structure Rec where
  court : String
  caseNumber : String
  decisionNumber : String
  decisionDate : String
  status : String
  explanation : String
  page : Nat
deriving DecidableEq

/-- A record with only the page and explanation fields populated, as a
convenience for concrete scenarios. -/
def mkRec (p : Nat) (e : String) : Rec :=
  ⟨"", "", "", "", "", e, p⟩

/-- The state of the CSV sink file as seen by `pd.read_csv`:
absent on disk, present but unparseable (read raises, caught by the
`except` branch of `get_last_page`), or parsed into rows, with a flag for
whether the `Page` column exists. -/
inductive CsvFile
  | absent
  | unreadable
  | table (hasPage : Bool) (rows : List Rec)
deriving DecidableEq

/-- `df["Page"].max()` over a non-empty frame (0 is never the answer the
code relies on for non-empty frames with pages ≥ 1; the fold base only
matters for the degenerate cases handled separately). -/
def maxPage (rows : List Rec) : Nat :=
  rows.foldr (fun r m => max r.page m) 0

/-- selenium_crawler2.py lines 46-57 (identical in selenium_test.py lines
47-58): return `df["Page"].max()` when the file exists, parses, is
non-empty and has a `Page` column; return 0 in every other case, including
when `pd.read_csv` raises (the `except` branch logs and returns 0). -/
def get_last_page (f : CsvFile) : Nat :=
  match f with
  | .absent => 0
  | .unreadable => 0
  | .table hasPage rows => if !rows.isEmpty && hasPage then maxPage rows else 0

/-- apitest_single.py lines 78-89: same shape but without the explicit
`'Page' in df.columns` guard; a missing column makes `df["Page"]` raise
KeyError, which the surrounding `except` catches, returning 0. -/
def get_last_page_api (f : CsvFile) : Nat :=
  match f with
  | .absent => 0
  | .unreadable => 0
  | .table hasPage rows =>
    if !rows.isEmpty then (if hasPage then maxPage rows else 0) else 0

/-- The degenerate sink states: absent, unparseable, empty, or lacking the
Page column. -/
def isDegenerate (f : CsvFile) : Bool :=
  match f with
  | .absent => true
  | .unreadable => true
  | .table hasPage rows => rows.isEmpty || !hasPage

/-- Observable effects of one `save_to_csv` call. -/
inductive SaveEv
  | wrote (n : Nat)
  | backup (n : Nat)
deriving DecidableEq

/-- `df.to_csv(CSV_FILE, mode="a", header=not exists)`: create the file
with a header when absent, append rows otherwise.  Appending to a file
read_csv cannot parse leaves it unparseable. -/
def appendFile (f : CsvFile) (data : List Rec) : CsvFile :=
  match f with
  | .absent => .table true data
  | .unreadable => .unreadable
  | .table hp rows => .table hp (rows ++ data)

/-- selenium_crawler2.py lines 60-80 and apitest_single.py lines 218-238:
an empty frame returns immediately with no write; otherwise the primary
sink write is attempted, and on failure a timestamped backup is written
(both failure modes are caught, so the call never raises).  `sinkOk` and
`backupOk` are the oracles for the two fallible writes. -/
def save_to_csv (data : List Rec) (sinkOk backupOk : Bool) (f : CsvFile)
    (bks : List (List Rec)) : CsvFile × List (List Rec) × List SaveEv :=
  if data.isEmpty then (f, bks, [])
  else if sinkOk then (appendFile f data, bks, [.wrote data.length])
  else if backupOk then (f, bks ++ [data], [.backup data.length])
  else (f, bks, [])

/-- Drop everything up to and including the first element matching `p`. -/
def suffixAfterFirst {α : Type} (p : α → Bool) : List α → List α
  | [] => []
  | x :: xs => if p x then xs else suffixAfterFirst p xs

/-- Keep everything strictly before the first element matching `p`. -/
def prefixBeforeFirst {α : Type} (p : α → Bool) : List α → List α
  | [] => []
  | x :: xs => if p x then [] else x :: prefixBeforeFirst p xs

namespace ApiTest

/-- apitest_single.py line 27. -/
def MAX_RETRIES : Nat := 5

/-- Outcome of one detail-fetch attempt in `get_explanation`: the server
answers with the CAPTCHA marker (`metadata.FMC == "ADALET_RUNTIME_EXCEPTION"`),
the request raises (network / HTTP / JSON error), or a document is
returned whose extracted text is the payload. -/
inductive FetchOut
  | captcha
  | err
  | ok (payload : String)
deriving DecidableEq

def FetchOut.isOk : FetchOut → Bool
  | .ok _ => true
  | _ => false

/-- One case entry as returned by the `aramalist` endpoint, with the
`page` key attached by `main` before batch processing. -/
structure ApiCase where
  id : Nat
  daire : String
  esasNo : String
  kararNo : String
  kararTarihi : String
  durum : String
  page : Nat
deriving DecidableEq

/-- Outcome of one page-list fetch attempt in `get_case_list`. -/
inductive ListOut
  | captcha
  | err
  | ok (cases : List ApiCase)
deriving DecidableEq

/-- The attempt loop of apitest_single.py `get_case_list` (lines 122-149),
started at attempt `a` with `n` attempts remaining; `o` gives the outcome
of each attempt.  Returns the fetched case list ([] after exhaustion),
the list of sleep delays performed (in order), and the number of attempts
used.  A CAPTCHA response sleeps `10 + attempt*5` and retries; an error
sleeps `5 + attempt*5` and retries unless it was the last attempt, which
returns [] without sleeping. -/
def get_case_list_go (o : Nat → ListOut) : Nat → Nat → List ApiCase × List Nat × Nat
  | _, 0 => ([], [], 0)
  | a, n + 1 =>
    match o a with
    | .ok cs => (cs, [], 1)
    | .captcha =>
      let r := get_case_list_go o (a + 1) n
      (r.1, (10 + a * 5) :: r.2.1, r.2.2 + 1)
    | .err =>
      if a < MAX_RETRIES - 1 then
        let r := get_case_list_go o (a + 1) n
        (r.1, (5 + a * 5) :: r.2.1, r.2.2 + 1)
      else ([], [], 1)

/-- `get_case_list` runs the attempt loop over `range(MAX_RETRIES)`. -/
def get_case_list (o : Nat → ListOut) : List ApiCase × List Nat × Nat :=
  get_case_list_go o 0 MAX_RETRIES

/-- The sleep delays of one `get_case_list` call, in attempt order. -/
def gclSleeps (o : Nat → ListOut) : List Nat := (get_case_list o).2.1

/-- The number of fetch attempts of one `get_case_list` call. -/
def gclAttempts (o : Nat → ListOut) : Nat := (get_case_list o).2.2

/-- The attempt loop of apitest_single.py `get_explanation` (lines
152-185): same retry structure as `get_case_list`; every exhaustion path
(final error at line 183, CAPTCHA still present when the loop ends at line
185) returns the sentinel string "Error fetching explanation". -/
def get_explanation_go (o : Nat → FetchOut) : Nat → Nat → String
  | _, 0 => "Error fetching explanation"
  | a, n + 1 =>
    match o a with
    | .ok t => t
    | .captcha => get_explanation_go o (a + 1) n
    | .err =>
      if a < MAX_RETRIES - 1 then get_explanation_go o (a + 1) n
      else "Error fetching explanation"

def get_explanation (o : Nat → FetchOut) : String :=
  get_explanation_go o 0 MAX_RETRIES

/-- The worker closure of `process_case_batch` (apitest_single.py lines
193-203): fetch the explanation for the case id and build the full record.
`o` maps a case id to its per-attempt outcome stream. -/
def fetch_explanation_worker (o : Nat → Nat → FetchOut) (c : ApiCase) : Rec :=
  { court := c.daire
    caseNumber := c.esasNo
    decisionNumber := c.kararNo
    decisionDate := c.kararTarihi
    status := c.durum
    explanation := get_explanation (o c.id)
    page := c.page }

/-- apitest_single.py lines 188-215: all cases are submitted to the pool
and every future's result is appended in submission (dict insertion)
order; the worker never raises, since `get_explanation` catches every
failure and returns the sentinel. -/
def process_case_batch (o : Nat → Nat → FetchOut) (cases : List ApiCase) : List Rec :=
  cases.map (fetch_explanation_worker o)

/-- Events of the concurrent detail-fetch pool, for trace reasoning about
`process_case_batch`: each worker's HTTP GET, the detector verdict carried
by the response (CAPTCHA marker = Blocked, well-formed body = Clear,
transport failure), and backoff sleeps. -/
inductive PoolEv
  | fetch (w : Nat)
  | blockedR (w : Nat)
  | clearR (w : Nat)
  | errR (w : Nat)
  | psleep (w d : Nat)
deriving DecidableEq

def PoolEv.isFetch : PoolEv → Bool
  | .fetch _ => true
  | _ => false

def PoolEv.isBlockedR : PoolEv → Bool
  | .blockedR _ => true
  | _ => false

def PoolEv.isClearR : PoolEv → Bool
  | .clearR _ => true
  | _ => false

/-- The event sequence of one pool worker running `get_explanation`
(attempt counter `a`, `n` attempts remaining): each attempt dispatches a
GET and observes the response; a CAPTCHA response is a Blocked report
followed by the backoff sleep, a well-formed response is a Clear report. -/
def workerEvs (w : Nat) (o : Nat → FetchOut) : Nat → Nat → List PoolEv
  | _, 0 => []
  | a, n + 1 =>
    .fetch w ::
      match o a with
      | .ok _ => [.clearR w]
      | .captcha => .blockedR w :: .psleep w (10 + a * 5) :: workerEvs w o (a + 1) n
      | .err =>
        .errR w ::
          if a < MAX_RETRIES - 1 then .psleep w (5 + a * 5) :: workerEvs w o (a + 1) n
          else []

/-- An interleaving of two workers' event streams under a schedule:
`true` steps worker 1, `false` steps worker 2; an exhausted schedule or
worker drains the rest in order.  The execution traces of
`process_case_batch`'s ThreadPoolExecutor on two cases are exactly these
interleavings. -/
def interleave : List Bool → List PoolEv → List PoolEv → List PoolEv
  | [], t1, t2 => t1 ++ t2
  | _ :: s, [], t2 => interleave s [] t2
  | true :: s, e :: t1, t2 => e :: interleave s t1 t2
  | false :: s, t1, [] => interleave s t1 []
  | false :: s, t1, e :: t2 => e :: interleave s t1 t2

/-- The events strictly between the first Blocked report and the next
Clear report of a pool trace. -/
def blockedSegment (tr : List PoolEv) : List PoolEv :=
  prefixBeforeFirst PoolEv.isClearR (suffixAfterFirst PoolEv.isBlockedR tr)

def countFetchP (tr : List PoolEv) : Nat := tr.countP PoolEv.isFetch

end ApiTest

namespace SelCrawler

/-- selenium_crawler2.py line 27. -/
def BATCH_SIZE : Nat := 2

/-- selenium_crawler2.py line 31. -/
def CAPTCHA_WAIT_TIME : Nat := 180

/-- The `time.sleep(5)` between polls of `wait_for_captcha_solution`. -/
def POLL_INTERVAL : Nat := 5

/-- Number of detector polls `wait_for_captcha_solution` performs before
the 180-second budget elapses: the loop checks at t = 0, 5, ..., 175. -/
def WAIT_POLLS : Nat := CAPTCHA_WAIT_TIME / POLL_INTERVAL

/-- Events of the selenium_crawler2.py crawl loop.  `fetch site cursor`
records a page scrape: `site` is the page the browser actually displays,
`cursor` is the script's `current_page` label written into the records. -/
inductive SelEv
  | fetch (site cursor : Nat)
  | checkB (blockedQ : Bool)
  | solved
  | timedOut
  | appendB (k : Nat)
  | flushEv (k : Nat)
  | drainEv (k : Nat)
  | nextPage (site cursor : Nat)
  | resetEv (ok : Bool)
deriving DecidableEq

def isFetch : SelEv → Bool
  | .fetch _ _ => true
  | _ => false

def isFlushLike : SelEv → Bool
  | .flushEv _ => true
  | .drainEv _ => true
  | _ => false

def isTimedOutEv : SelEv → Bool
  | .timedOut => true
  | _ => false

def isCheckEv : SelEv → Bool
  | .checkB _ => true
  | _ => false

/-- The environment of one crawl session: the source's page count and
per-page records, the block-detector stream (consulted one index per
check, modelling the DOM heuristics of `check_for_captcha` and the
results-table polls of `wait_for_captcha_solution`), the sampled state of
the SIGINT terminate flag, and whether sink and backup writes succeed. -/
structure Env where
  totalPages : Nat
  pageRecs : Nat → List Rec
  blocked : Nat → Bool
  termO : Nat → Bool
  sinkOk : Bool
  backupOk : Bool

/-- The mutable state of `main`: the `current_page` counter, the page the
browser displays, the in-memory batch, the consecutive-empty-page counter,
the detector-consult clock, the terminate-flag sample counter, the
`terminate` global, and the sink state. -/
structure St where
  page : Nat
  disp : Nat
  batch : List Rec
  consec : Nat
  clk : Nat
  tchk : Nat
  termFlag : Bool
  file : CsvFile
  backups : List (List Rec)

/-- selenium_crawler2.py lines 116-142 `wait_for_captcha_solution`: poll
the results table every `POLL_INTERVAL` seconds; return True as soon as
it is present (detector Clear), False when the `CAPTCHA_WAIT_TIME` budget
elapses.  `n` is the number of polls left in the budget; the returned Nat
is the advanced detector clock. -/
def wait_go (b : Nat → Bool) : Nat → Nat → Bool × Nat × List SelEv
  | clk, 0 => (false, clk, [.timedOut])
  | clk, n + 1 =>
    if b clk then
      let r := wait_go b (clk + 1) n
      (r.1, r.2.1, .checkB true :: r.2.2)
    else (true, clk + 1, [.checkB false, .solved])

/-- The rows the browser serves when displaying page `site`, tagged with
the script's `current_page` label `cursor` (the `"Page": current_page`
entry of `case_info`).  Past the final page the table is empty.  The
per-row retry loop of `process_page` (lines 171-230) is abstracted to the
page's records, its Transport role in the spec. -/
def fetchRows (env : Env) (site cursor : Nat) : List Rec :=
  if site ≤ env.totalPages then
    (env.pageRecs site).map (fun r => {r with page := cursor})
  else []

/-- selenium_crawler2.py lines 145-231 `process_page` at the abstraction
of one detector check followed by the scrape: a Blocked check enters
`wait_for_captcha_solution`; an unsolved CAPTCHA returns no cases, a
solved one (or a Clear check) scrapes the displayed page. -/
def process_page (env : Env) (cursor site clk : Nat) : List Rec × Nat × List SelEv :=
  if env.blocked clk then
    let w := wait_go env.blocked (clk + 1) WAIT_POLLS
    if w.1 then
      (fetchRows env site cursor, w.2.1, .checkB true :: w.2.2 ++ [.fetch site cursor])
    else ([], w.2.1, .checkB true :: w.2.2)
  else (fetchRows env site cursor, clk + 1, [.checkB false, .fetch site cursor])

/-- selenium_crawler2.py lines 234-262 `reset_search_if_needed`: when the
results table is absent (detector Blocked) it handles a CAPTCHA if one is
detected and then re-runs the search, returning True; when the page still
shows results the guard fails and the function returns False. -/
def reset_search (env : Env) (clk : Nat) : Bool × Nat × List SelEv :=
  if env.blocked clk then
    if env.blocked (clk + 1) then
      let w := wait_go env.blocked (clk + 2) WAIT_POLLS
      (w.1, w.2.1, .checkB true :: .checkB true :: w.2.2)
    else (true, clk + 2, [.checkB true, .checkB false])
  else (false, clk + 1, [.checkB false])

/-- Result of one pass through the `while not terminate` body: exit the
loop (break / condition false) or continue with the next state.  Each
trace element pairs the event with the batch size observed at it. -/
inductive StepRes
  | exit (s : St) (tr : List (SelEv × Nat))
  | cont (s : St) (tr : List (SelEv × Nat))

def prependT (tr : List (SelEv × Nat)) : StepRes → StepRes
  | .exit s tr2 => .exit s (tr ++ tr2)
  | .cont s tr2 => .cont s (tr ++ tr2)

def resTrace : StepRes → List (SelEv × Nat)
  | .exit _ tr => tr
  | .cont _ tr => tr

def resSt : StepRes → St
  | .exit s _ => s
  | .cont s _ => s

/-- Pair every event with the observed batch size `m`. -/
def tagB (m : Nat) (es : List SelEv) : List (SelEv × Nat) :=
  es.map (fun e => (e, m))

/-- Lines 356-379: navigate to the next page.  A Blocked state means the
`detayAramaSonuclar_next` button is gone (NoSuchElementException), which
triggers a CAPTCHA check and possibly a wait; a solved wait re-enters the
loop on the same page, an unsolved one breaks, and so does a missing
button with no CAPTCHA.  A present button is disabled exactly on the last
page. -/
def navPhase (env : Env) (s : St) : StepRes :=
  let m := s.batch.length
  if env.blocked s.clk then
    if env.blocked (s.clk + 1) then
      let w := wait_go env.blocked (s.clk + 2) WAIT_POLLS
      if w.1 then
        .cont {s with clk := w.2.1} (tagB m (.checkB true :: .checkB true :: w.2.2))
      else
        .exit {s with clk := w.2.1} (tagB m (.checkB true :: .checkB true :: w.2.2))
    else .exit {s with clk := s.clk + 2} (tagB m [.checkB true, .checkB false])
  else
    if s.disp ≥ env.totalPages then
      .exit {s with clk := s.clk + 1} (tagB m [.checkB false])
    else
      .cont {s with disp := s.disp + 1, page := s.page + 1, clk := s.clk + 1}
        (tagB m [.checkB false, .nextPage (s.disp + 1) (s.page + 1)])

/-- Lines 352-354: `if terminate: break`, then the navigation step. -/
def afterFlushChk (env : Env) (s : St) : StepRes :=
  if s.termFlag || env.termO s.tchk then .exit {s with tchk := s.tchk + 1} []
  else navPhase env {s with tchk := s.tchk + 1}

/-- Lines 346-350: `if len(batch_data) >= BATCH_SIZE * 10 or terminate:
save_to_csv(batch_data); batch_data = []`. -/
def flushPhase (env : Env) (s : St) : StepRes :=
  if decide (BATCH_SIZE * 10 ≤ s.batch.length) || s.termFlag || env.termO s.tchk then
    let sv := save_to_csv s.batch env.sinkOk env.backupOk s.file s.backups
    prependT [(.flushEv s.batch.length, 0)]
      (afterFlushChk env
        {s with batch := [], file := sv.1, backups := sv.2.1, tchk := s.tchk + 1})
  else afterFlushChk env {s with tchk := s.tchk + 1}

/-- Outcome of the empty/non-empty bookkeeping (lines 311-344): either the
iteration re-enters the loop top immediately (the reset path's `continue`)
or control falls through to the save-batch check. -/
inductive MidRes
  | continueLoop (s : St) (tr : List (SelEv × Nat))
  | fallthrough (s : St) (tr : List (SelEv × Nat))

def midSt : MidRes → St
  | .continueLoop s _ => s
  | .fallthrough s _ => s

def midTrace : MidRes → List (SelEv × Nat)
  | .continueLoop _ tr => tr
  | .fallthrough _ tr => tr

def midIsCont : MidRes → Bool
  | .continueLoop _ _ => true
  | .fallthrough _ _ => false

/-- Lines 311-344: an empty page bumps `consecutive_empty_pages`; two in a
row attempt `reset_search_if_needed`.  A successful reset re-runs the
search (displayed page 1) and clicks next back toward `current_page` —
reaching it when it exists, or exhausting the pages and setting
`terminate` — then `continue`s.  A failed reset sets `terminate` and falls
through, so the flush check runs with `terminate` true.  A non-empty page
resets the counter and extends the batch. -/
def casesPhase (env : Env) (s : St) (cases : List Rec) : MidRes :=
  if cases.isEmpty then
    if s.consec + 1 ≥ 2 then
      let r := reset_search env s.clk
      if r.1 then
        if s.page ≤ env.totalPages then
          .continueLoop {s with consec := 0, clk := r.2.1, disp := s.page}
            (tagB s.batch.length (r.2.2 ++ [.resetEv true]))
        else
          .continueLoop
            {s with consec := 0, clk := r.2.1, disp := env.totalPages, termFlag := true}
            (tagB s.batch.length (r.2.2 ++ [.resetEv true]))
      else
        .fallthrough {s with consec := s.consec + 1, clk := r.2.1, termFlag := true}
          (tagB s.batch.length (r.2.2 ++ [.resetEv false]))
    else .fallthrough {s with consec := s.consec + 1} []
  else
    .fallthrough {s with consec := 0, batch := s.batch ++ cases}
      [(.appendB cases.length, (s.batch ++ cases).length)]

/-- One full pass of the `while not terminate` body (lines 305-379): the
loop condition, the page processing, the empty/non-empty bookkeeping, and
— unless that bookkeeping `continue`d — the flush check and navigation. -/
def step (env : Env) (s : St) : StepRes :=
  if s.termFlag || env.termO s.tchk then .exit {s with tchk := s.tchk + 1} []
  else
    let s1 : St := {s with tchk := s.tchk + 1}
    let pr := process_page env s1.page s1.disp s1.clk
    let m := casesPhase env {s1 with clk := pr.2.1} pr.1
    if midIsCont m then .cont (midSt m) (tagB s1.batch.length pr.2.2 ++ midTrace m)
    else prependT (tagB s1.batch.length pr.2.2 ++ midTrace m) (flushPhase env (midSt m))

/-- Fuel-bounded iteration of the loop body; `none` means the fuel ran out
before the loop terminated (a non-terminal prefix of the session). -/
def loop (env : Env) : Nat → St → Option St × List (SelEv × Nat)
  | 0, _ => (none, [])
  | fuel + 1, s =>
    match step env s with
    | .exit s2 tr => (some s2, tr)
    | .cont s2 tr =>
      let r := loop env fuel s2
      (r.1, tr ++ r.2)

/-- Lines 286-300: `last_page = get_last_page(); current_page = last_page
+ 1`, then the initial search — which leaves the browser displaying page 1
of the fresh results; no navigation to `current_page` is performed. -/
def initSt (f : CsvFile) : St :=
  { page := get_last_page f + 1, disp := 1, batch := [], consec := 0, clk := 0,
    tchk := 0, termFlag := false, file := f, backups := [] }

/-- The whole session (lines 265-390): init, the loop, and the `finally`
drain handler, which saves any remaining batch before quitting. -/
def run (env : Env) (f : CsvFile) (fuel : Nat) : Option (St × List (SelEv × Nat)) :=
  match loop env fuel (initSt f) with
  | (none, _) => none
  | (some s, tr) =>
    if s.batch.isEmpty then some (s, tr ++ [(.drainEv 0, 0)])
    else
      let sv := save_to_csv s.batch env.sinkOk env.backupOk s.file s.backups
      some ({s with batch := [], file := sv.1, backups := sv.2.1},
        tr ++ [(.drainEv s.batch.length, 0)])

/-- The event trace of a terminating session ([] when fuel ran out). -/
def runTrace (env : Env) (f : CsvFile) (fuel : Nat) : List (SelEv × Nat) :=
  match run env f fuel with
  | none => []
  | some r => r.2

/-- The browser pages actually scraped, in order. -/
def sitePages (tr : List (SelEv × Nat)) : List Nat :=
  tr.filterMap (fun p => match p.1 with | .fetch s _ => some s | _ => none)

/-- The `current_page` labels under which scrapes were recorded, in order. -/
def cursorPages (tr : List (SelEv × Nat)) : List Nat :=
  tr.filterMap (fun p => match p.1 with | .fetch _ c => some c | _ => none)

def timedOutCount (tr : List (SelEv × Nat)) : Nat :=
  tr.countP (fun p => isTimedOutEv p.1)

def fetchCountTr (tr : List (SelEv × Nat)) : Nat :=
  tr.countP (fun p => isFetch p.1)

/-- The trace suffix strictly after the first CAPTCHA-wait timeout. -/
def afterFirstTimeout (tr : List (SelEv × Nat)) : List (SelEv × Nat) :=
  suffixAfterFirst (fun p => isTimedOutEv p.1) tr

end SelCrawler

namespace SelTest

/-- selenium_test.py line 28. -/
def BATCH_SIZE : Nat := 2

/-- What the CAPTCHA machinery at the top of `process_page` (selenium_test.py
lines 249-263) does on one page visit: no CAPTCHA; a CAPTCHA whose wait
timed out; or a solved CAPTCHA together with the page
`wait_for_captcha_solution` detected as displayed afterwards (None when it
could not tell). -/
inductive CapOutcome
  | noCap
  | capFail
  | capSolved (displayed : Option Nat)
deriving DecidableEq

/-- Environment of one selenium_test.py session: source size and contents,
the per-iteration CAPTCHA outcome, whether `navigate_to_page` back to the
cursor succeeds, whether `reset_search` succeeds, the sampled terminate
flag, and sink/backup write success. -/
structure Env where
  totalPages : Nat
  pageRecs : Nat → List Rec
  capO : Nat → CapOutcome
  navO : Nat → Bool
  resetO : Nat → Bool
  termO : Nat → Bool
  sinkOk : Bool
  backupOk : Bool

/-- State of selenium_test.py `main`: cursor, batch, iteration counter
(driving the oracles), terminate-flag sample counter, terminate global,
and sink state.  Unlike selenium_crawler2.py, this variant navigates the
browser to the cursor at startup and re-navigates after CAPTCHAs, so the
displayed page tracks `current_page` except through the modelled rollback. -/
structure St where
  page : Nat
  batch : List Rec
  iter : Nat
  tchk : Nat
  termFlag : Bool
  file : CsvFile
  backups : List (List Rec)

/-- The rows served for page `p`, tagged `"Page": current_page` where the
local `current_page` equals `p` at the tagging point. -/
def fetchRows (env : Env) (p : Nat) : List Rec :=
  if p ≤ env.totalPages then (env.pageRecs p).map (fun r => {r with page := p}) else []

/-- selenium_test.py lines 244-408 `process_page`, abstracted over row
retries: the CAPTCHA check at entry may (a) pass, (b) fail its wait —
returning no cases and the unchanged cursor — or (c) succeed with a
detected displayed page `d`.  When `d ≠ current_page` and
`navigate_to_page(current_page)` fails, the code sets `current_page =
new_page` (lines 257-263) and scrapes from there; the returned pair is
`(cases, current_page)`. -/
def process_page (env : Env) (n cp : Nat) : List Rec × Nat :=
  match env.capO n with
  | .noCap => (fetchRows env cp, cp)
  | .capFail => ([], cp)
  | .capSolved none => (fetchRows env cp, cp)
  | .capSolved (some d) =>
    if d ≠ cp then
      if env.navO n then (fetchRows env cp, cp)
      else (fetchRows env d, d)
    else (fetchRows env cp, cp)

/-- Result of one pass through the `while not terminate` body of
selenium_test.py `main`; the trace collects observations of
(checkpoint derived from the sink, current_page) at every point where
either component changes. -/
inductive TRes
  | exit (s : St) (obs : List (Nat × Nat))
  | cont (s : St) (obs : List (Nat × Nat))

def tSt : TRes → St
  | .exit s _ => s
  | .cont s _ => s

def tObs : TRes → List (Nat × Nat)
  | .exit _ obs => obs
  | .cont _ obs => obs

/-- Lines 574-589: terminate check, then navigation to the next page
(disabled on the last page → break). -/
def afterT (env : Env) (s : St) (obs : List (Nat × Nat)) : TRes :=
  if s.termFlag || env.termO s.tchk then .exit {s with tchk := s.tchk + 1} obs
  else
    if s.page ≥ env.totalPages then .exit {s with tchk := s.tchk + 1} obs
    else
      .cont {s with page := s.page + 1, iter := s.iter + 1, tchk := s.tchk + 1}
        (obs ++ [(get_last_page s.file, s.page + 1)])

/-- Lines 568-572: `if len(batch_data) >= BATCH_SIZE * 10 or terminate:
save_to_csv(batch_data); batch_data = []`. -/
def flushT (env : Env) (s : St) (obs : List (Nat × Nat)) : TRes :=
  if decide (BATCH_SIZE * 10 ≤ s.batch.length) || s.termFlag || env.termO s.tchk then
    let sv := save_to_csv s.batch env.sinkOk env.backupOk s.file s.backups
    let s2 := {s with batch := [], file := sv.1, backups := sv.2.1, tchk := s.tchk + 1}
    afterT env s2 (obs ++ [(get_last_page s2.file, s2.page)])
  else afterT env {s with tchk := s.tchk + 1} obs

/-- One pass of the loop body (lines 523-622): process the page, adopt the
possibly-updated cursor returned by `process_page` (lines 527-533), then
either the empty-page recovery (reset search, else try the next page with
`continue`, else terminate — lines 535-562) or the batch extension, then
flush and navigation. -/
def stepT (env : Env) (s : St) : TRes :=
  if s.termFlag || env.termO s.tchk then .exit {s with tchk := s.tchk + 1} []
  else
    let s0 : St := {s with tchk := s.tchk + 1}
    let pr := process_page env s0.iter s0.page
    let s1 : St := {s0 with page := pr.2}
    let ob1 : List (Nat × Nat) := [(get_last_page s1.file, s1.page)]
    if pr.1.isEmpty then
      if env.resetO s1.iter then flushT env s1 ob1
      else
        if s1.page ≥ env.totalPages then .exit {s1 with termFlag := true} ob1
        else
          .cont {s1 with page := s1.page + 1, iter := s1.iter + 1}
            (ob1 ++ [(get_last_page s1.file, s1.page + 1)])
    else flushT env {s1 with batch := s1.batch ++ pr.1} ob1

/-- Fuel-bounded iteration of the loop body. -/
def loopT (env : Env) : Nat → St → Option St × List (Nat × Nat)
  | 0, _ => (none, [])
  | fuel + 1, s =>
    match stepT env s with
    | .exit s2 obs => (some s2, obs)
    | .cont s2 obs =>
      let r := loopT env fuel s2
      (r.1, obs ++ r.2)

/-- selenium_test.py lines 483-485: `current_page = last_page + 1 if
last_page > 0 else 1`. -/
def initSt (f : CsvFile) : St :=
  { page := if get_last_page f > 0 then get_last_page f + 1 else 1,
    batch := [], iter := 0, tchk := 0, termFlag := false, file := f, backups := [] }

/-- The whole session (lines 454-633) with the `finally` drain save. -/
def runT (env : Env) (f : CsvFile) (fuel : Nat) : Option (St × List (Nat × Nat)) :=
  let s0 := initSt f
  match loopT env fuel s0 with
  | (none, _) => none
  | (some s, obs) =>
    if s.batch.isEmpty then
      some (s, (get_last_page f, s0.page) :: obs)
    else
      let sv := save_to_csv s.batch env.sinkOk env.backupOk s.file s.backups
      let s2 := {s with batch := [], file := sv.1, backups := sv.2.1}
      some (s2, (get_last_page f, s0.page) :: obs ++ [(get_last_page s2.file, s2.page)])

/-- The (checkpoint, currentPage) observations of a terminating session,
beginning with the initial state. -/
def runObs (env : Env) (f : CsvFile) (fuel : Nat) : List (Nat × Nat) :=
  match runT env f fuel with
  | none => []
  | some r => r.2

end SelTest

/-- A clean source: every page serves ten records. -/
def cleanRecs : Nat → List Rec := fun _ => List.replicate 10 (mkRec 0 "e")

/-- A sink left by a prior run whose highest Page is 4. -/
def fileC1 : CsvFile := .table true [mkRec 3 "a", mkRec 4 "b", mkRec 2 "c"]

/-- A six-page source with no blocking and no interrupt. -/
def envC1 : SelCrawler.Env :=
  { totalPages := 6, pageRecs := cleanRecs, blocked := fun _ => false,
    termO := fun _ => false, sinkOk := true, backupOk := true }

/-- A source whose detector reports Blocked for exactly the first CAPTCHA
check and the whole ensuing wait (consultations 0-36), then Clear. -/
def envC3a : SelCrawler.Env :=
  { totalPages := 6, pageRecs := cleanRecs, blocked := fun i => decide (i ≤ 36),
    termO := fun _ => false, sinkOk := true, backupOk := true }

/-- A source that serves one page cleanly and then blocks forever
(consultations 2 onward are Blocked). -/
def envC3c : SelCrawler.Env :=
  { totalPages := 6, pageRecs := cleanRecs, blocked := fun i => decide (2 ≤ i),
    termO := fun _ => false, sinkOk := true, backupOk := true }

/-- A source whose detector reports Blocked at every consultation. -/
def envAllBlocked (pr : Nat → List Rec) (tot : Nat) : SelCrawler.Env :=
  { totalPages := tot, pageRecs := pr, blocked := fun _ => true,
    termO := fun _ => false, sinkOk := true, backupOk := true }

/-- Worker-1 outcomes: the first detail-fetch attempt hits the CAPTCHA
marker, the second succeeds. -/
def oC2a : Nat → ApiTest.FetchOut :=
  fun a => if a = 0 then ApiTest.FetchOut.captcha else ApiTest.FetchOut.ok "t1"

/-- Worker-2 outcomes: the first attempt succeeds. -/
def oC2b : Nat → ApiTest.FetchOut := fun _ => ApiTest.FetchOut.ok "t2"

/-- A legal two-worker pool trace of `process_case_batch`: worker 1
fetches and observes Blocked, then worker 2 fetches (and observes Clear)
while worker 1 is still backing off. -/
def poolCexTrace : List ApiTest.PoolEv :=
  ApiTest.interleave [true, true, false, false]
    (ApiTest.workerEvs 1 oC2a 0 ApiTest.MAX_RETRIES)
    (ApiTest.workerEvs 2 oC2b 0 ApiTest.MAX_RETRIES)

/-- A case whose detail fetch fails on every attempt. -/
def caseC4a : ApiTest.ApiCase := ⟨1, "D1", "E1", "K1", "T1", "S1", 7⟩

/-- A case whose detail fetch succeeds. -/
def caseC4b : ApiTest.ApiCase := ⟨2, "D2", "E2", "K2", "T2", "S2", 7⟩

def casesC4 : List ApiTest.ApiCase := [caseC4a, caseC4b]

/-- Outcome oracle: case id 1 always errors, every other id succeeds
immediately. -/
def oC4 : Nat → Nat → ApiTest.FetchOut :=
  fun id _ => if id = 1 then ApiTest.FetchOut.err else ApiTest.FetchOut.ok "GEREKCE"

/-- All page-list fetch attempts raise. -/
def oC5 : Nat → ApiTest.ListOut := fun _ => ApiTest.ListOut.err

/-- A three-page source where iteration 2 hits a CAPTCHA whose recovery
detects displayed page 1 and whose navigation back to the cursor fails:
the code rolls `current_page` back to 1. -/
def envC6 : SelTest.Env :=
  { totalPages := 3, pageRecs := cleanRecs,
    capO := fun n => if n = 2 then SelTest.CapOutcome.capSolved (some 1)
      else SelTest.CapOutcome.noCap,
    navO := fun _ => false, resetO := fun _ => true,
    termO := fun _ => false, sinkOk := true, backupOk := true }

/-- A three-page source with no CAPTCHA at all. -/
def envC6W : SelTest.Env :=
  { totalPages := 3, pageRecs := cleanRecs,
    capO := fun _ => SelTest.CapOutcome.noCap,
    navO := fun _ => true, resetO := fun _ => true,
    termO := fun _ => false, sinkOk := true, backupOk := true }

theorem gclSleeps_go_bounds (o : Nat → ApiTest.ListOut) :
    ∀ (n a j : Nat), j < ((ApiTest.get_case_list_go o a n).2.1).length →
      5 + (a + j) * 5 ≤ ((ApiTest.get_case_list_go o a n).2.1).getD j 0 ∧
      ((ApiTest.get_case_list_go o a n).2.1).getD j 0 ≤ 10 + (a + j) * 5 := by
  intro n
  induction n with
  | zero => intro a j h; simp [ApiTest.get_case_list_go] at h
  | succ n ih =>
    intro a j h
    cases ho : o a with
    | ok cs => simp [ApiTest.get_case_list_go, ho] at h
    | captcha =>
      simp only [ApiTest.get_case_list_go, ho] at h ⊢
      cases j with
      | zero => simp only [List.getD_cons_zero]; omega
      | succ j =>
        simp only [List.length_cons, Nat.add_lt_add_iff_right] at h
        have hb := ih (a + 1) j h
        simp only [List.getD_cons_succ]
        omega
    | err =>
      by_cases ha : a < ApiTest.MAX_RETRIES - 1
      · simp only [ApiTest.get_case_list_go, ho, if_pos ha] at h ⊢
        cases j with
        | zero => simp only [List.getD_cons_zero]; omega
        | succ j =>
          simp only [List.length_cons, Nat.add_lt_add_iff_right] at h
          have hb := ih (a + 1) j h
          simp only [List.getD_cons_succ]
          omega
      · simp [ApiTest.get_case_list_go, ho, if_neg ha] at h

theorem gclAttempts_go_le (o : Nat → ApiTest.ListOut) :
    ∀ (n a : Nat), (ApiTest.get_case_list_go o a n).2.2 ≤ n := by
  intro n
  induction n with
  | zero => intro a; simp [ApiTest.get_case_list_go]
  | succ n ih =>
    intro a
    cases ho : o a with
    | ok cs => simp [ApiTest.get_case_list_go, ho]
    | captcha =>
      simp only [ApiTest.get_case_list_go, ho]
      have := ih (a + 1)
      omega
    | err =>
      by_cases ha : a < ApiTest.MAX_RETRIES - 1
      · simp only [ApiTest.get_case_list_go, ho, if_pos ha]
        have := ih (a + 1)
        omega
      · simp [ApiTest.get_case_list_go, ho, if_neg ha]

/-- C5: within one `get_case_list` call the sleep delay performed at a
later attempt is never smaller than the delay performed at an earlier
attempt (the error path sleeps `5 + 5k`, the CAPTCHA path `10 + 5k`, both
increasing fast enough to dominate each other across attempts), and the
number of attempts never exceeds `MAX_RETRIES`. -/
theorem c5_backoff_monotone (o : Nat → ApiTest.ListOut) (k1 k2 : Nat)
    (h12 : k1 < k2) (h2 : k2 < (ApiTest.gclSleeps o).length) :
    (ApiTest.gclSleeps o).getD k1 0 ≤ (ApiTest.gclSleeps o).getD k2 0 ∧
    ApiTest.gclAttempts o ≤ ApiTest.MAX_RETRIES := by
  have h1 : k1 < (ApiTest.gclSleeps o).length := lt_trans h12 h2
  simp only [ApiTest.gclSleeps, ApiTest.get_case_list] at h1 h2 ⊢
  have b1 := gclSleeps_go_bounds o ApiTest.MAX_RETRIES 0 k1 h1
  have b2 := gclSleeps_go_bounds o ApiTest.MAX_RETRIES 0 k2 h2
  refine ⟨by omega, ?_⟩
  simp only [ApiTest.gclAttempts, ApiTest.get_case_list]
  exact gclAttempts_go_le o ApiTest.MAX_RETRIES 0

/-- C5 witness: with every attempt failing, the delays are 5, 10, 15, 20
and five attempts are made. -/
theorem c5_backoff_monotone_witness :
    (0 < 1 ∧ 1 < (ApiTest.gclSleeps oC5).length) ∧
    (ApiTest.gclSleeps oC5).getD 0 0 ≤ (ApiTest.gclSleeps oC5).getD 1 0 ∧
    ApiTest.gclAttempts oC5 ≤ ApiTest.MAX_RETRIES :=
  ⟨⟨by decide, by decide⟩, c5_backoff_monotone oC5 0 1 (by decide) (by decide)⟩

theorem get_explanation_go_fail (o : Nat → ApiTest.FetchOut)
    (hfail : ∀ a, (o a).isOk = false) :
    ∀ (n a : Nat), ApiTest.get_explanation_go o a n = "Error fetching explanation" := by
  intro n
  induction n with
  | zero => intro a; rfl
  | succ n ih =>
    intro a
    cases ho : o a with
    | ok t =>
      have := hfail a
      rw [ho] at this
      simp [ApiTest.FetchOut.isOk] at this
    | captcha => simp [ApiTest.get_explanation_go, ho, ih]
    | err => simp [ApiTest.get_explanation_go, ho, ih]

/-- C4 (amended): when one case's detail fetch fails on every attempt, the
batch still produces one record per case in order, the failing case's
record carries the code's sentinel "Error fetching explanation", every
record carries exactly the explanation its own fetch yielded, and the
flush of the batch writes all of them to the sink unimpeded. -/
theorem c4_partial_failure_isolated (o : Nat → Nat → ApiTest.FetchOut)
    (cases : List ApiTest.ApiCase) (i : Nat) (ci : ApiTest.ApiCase)
    (hci : cases.get? i = some ci)
    (hfail : ∀ a, (o ci.id a).isOk = false) :
    (ApiTest.process_case_batch o cases).length = cases.length ∧
    ((ApiTest.process_case_batch o cases).get? i).map Rec.explanation =
      some "Error fetching explanation" ∧
    (∀ j : Nat, (ApiTest.process_case_batch o cases).get? j =
      (cases.get? j).map (ApiTest.fetch_explanation_worker o)) ∧
    (∀ (bOk : Bool) (f : CsvFile) (bks : List (List Rec)),
      save_to_csv (ApiTest.process_case_batch o cases) true bOk f bks =
        (appendFile f (ApiTest.process_case_batch o cases), bks,
          [SaveEv.wrote cases.length])) := by
  have hne : (ApiTest.process_case_batch o cases).isEmpty = false := by
    cases cases with
    | nil => simp at hci
    | cons c cs => simp [ApiTest.process_case_batch]
  refine ⟨List.length_map _ _, ?_, ?_, ?_⟩
  · rw [ApiTest.process_case_batch, List.get?_map, hci]
    simp [ApiTest.fetch_explanation_worker, ApiTest.get_explanation,
      get_explanation_go_fail (o ci.id) hfail]
  · intro j
    rw [ApiTest.process_case_batch, List.get?_map]
  · intro bOk f bks
    have hc0 : cases ≠ [] := by
      intro h
      subst h
      simp at hci
    simp [save_to_csv, hne, ApiTest.process_case_batch, List.length_map, hc0]

/-- C4 witness: in a two-case batch where case id 1 always fails and case
id 2 succeeds, both records are produced and the failed one carries the
sentinel; the flush writes both. -/
theorem c4_partial_failure_isolated_witness :
    (casesC4.get? 0 = some caseC4a ∧ ∀ a, (oC4 caseC4a.id a).isOk = false) ∧
    (ApiTest.process_case_batch oC4 casesC4).length = casesC4.length ∧
    ((ApiTest.process_case_batch oC4 casesC4).get? 0).map Rec.explanation =
      some "Error fetching explanation" :=
  ⟨⟨rfl, fun _ => rfl⟩,
    (c4_partial_failure_isolated oC4 casesC4 0 caseC4a rfl (fun _ => rfl)).1,
    (c4_partial_failure_isolated oC4 casesC4 0 caseC4a rfl (fun _ => rfl)).2.1⟩

/-- C4 counterexample: the record produced for a case whose fetch fails on
every retry attempt carries the sentinel "Error fetching explanation",
not the sentinel "<fetch failed>" stated by the claim. -/
theorem c4_sentinel_string_cex :
    ((ApiTest.process_case_batch oC4 casesC4).get? 0).map Rec.explanation =
      some "Error fetching explanation" ∧
    ¬ (((ApiTest.process_case_batch oC4 casesC4).get? 0).map Rec.explanation =
      some "<fetch failed>") := by decide

/-- C2 (amended): the block-recovery wait of the single-threaded selenium
crawler dispatches no page-fetch or detail-fetch at all — between the
Blocked report that enters it and the Clear report or timeout that leaves
it, it only polls the detector and sleeps. -/
theorem c2_wait_dispatches_no_fetch (b : Nat → Bool) :
    ∀ (n clk : Nat),
      ((SelCrawler.wait_go b clk n).2.2).countP SelCrawler.isFetch = 0 := by
  intro n
  induction n with
  | zero => intro clk; rfl
  | succ n ih =>
    intro clk
    by_cases hb : b clk
    · simp [SelCrawler.wait_go, hb, List.countP_cons, SelCrawler.isFetch, ih]
    · simp [SelCrawler.wait_go, hb, List.countP_cons, SelCrawler.isFetch]

/-- C2 counterexample: a legal schedule of `process_case_batch`'s
two-worker pool in which, strictly between worker 1's Blocked report and
the next Clear report, worker 2 dispatches a new detail fetch — the claim
requires exactly zero such fetches. -/
theorem c2_pool_fetch_between_blocked_clear :
    ApiTest.blockedSegment poolCexTrace = [ApiTest.PoolEv.fetch 2] ∧
    ApiTest.countFetchP (ApiTest.blockedSegment poolCexTrace) ≠ 0 := by decide

/-- C9: reading the checkpoint is total over every sink state — it
returns 0 (so the crawl resumes at page 1) whenever the file is absent,
unparseable, empty, or lacks the Page column, in both the guarded
(selenium) and the exception-driven (api) variant, and the two variants
agree everywhere. -/
theorem c9_checkpoint_total (f : CsvFile) :
    (isDegenerate f = true →
      get_last_page f = 0 ∧ get_last_page_api f = 0 ∧ get_last_page f + 1 = 1) ∧
    get_last_page_api f = get_last_page f := by
  cases f with
  | absent => exact ⟨fun _ => ⟨rfl, rfl, rfl⟩, rfl⟩
  | unreadable => exact ⟨fun _ => ⟨rfl, rfl, rfl⟩, rfl⟩
  | table hp rows =>
    cases hp <;> cases rows <;>
      simp [isDegenerate, get_last_page, get_last_page_api]

/-- C9 witness: at the absent sink both variants return 0 and the crawl
starts at page 1. -/
theorem c9_checkpoint_total_witness :
    isDegenerate CsvFile.absent = true ∧
    (get_last_page CsvFile.absent = 0 ∧ get_last_page_api CsvFile.absent = 0 ∧
      get_last_page CsvFile.absent + 1 = 1) :=
  ⟨rfl, (c9_checkpoint_total CsvFile.absent).1 rfl⟩

/-- C10: flushing an empty record list is a no-op on the sink — no write,
no backup, and the derived checkpoint is unchanged. -/
theorem c10_empty_flush_noop :
    ∀ (sinkOk backupOk : Bool) (f : CsvFile) (bks : List (List Rec)),
      save_to_csv [] sinkOk backupOk f bks = (f, bks, []) ∧
      get_last_page (save_to_csv [] sinkOk backupOk f bks).1 = get_last_page f :=
  fun _ _ _ _ => ⟨rfl, rfl⟩

theorem run_drain_shape (env : SelCrawler.Env) (f : CsvFile) (fuel : Nat) :
    SelCrawler.run env f fuel = none ∨
    ∃ (tr : List (SelCrawler.SelEv × Nat)) (n : Nat),
      SelCrawler.runTrace env f fuel = tr ++ [(SelCrawler.SelEv.drainEv n, 0)] := by
  rcases hl : SelCrawler.loop env fuel (SelCrawler.initSt f) with ⟨os, tr⟩
  cases os with
  | none => exact Or.inl (by simp [SelCrawler.run, hl])
  | some s =>
    by_cases hb : s.batch.isEmpty
    · exact Or.inr ⟨tr, 0, by simp [SelCrawler.runTrace, SelCrawler.run, hl, hb]⟩
    · exact Or.inr ⟨tr, s.batch.length,
        by simp [SelCrawler.runTrace, SelCrawler.run, hl, hb]⟩

/-- C8: every crawl session that terminates does so through the drain
handler — the last event of its trace is the final-flush attempt of the
`finally` block, after which nothing else happens; all loop operations
are embedded as total functions (each Python-level failure is caught and
turned into a logged branch), so no exception escapes the handler. -/
theorem c8_drain_on_termination (env : SelCrawler.Env) (f : CsvFile) (fuel : Nat)
    (h : (SelCrawler.run env f fuel).isSome = true) :
    ∃ n : Nat, ((SelCrawler.runTrace env f fuel).getLast?).map Prod.fst =
      some (SelCrawler.SelEv.drainEv n) := by
  rcases run_drain_shape env f fuel with h0 | ⟨tr, n, hs⟩
  · rw [h0] at h
    simp at h
  · exact ⟨n, by simp [hs, List.getLast?_concat]⟩

/-- C8 witness: the clean six-page session terminates and its trace ends
with the drain flush. -/
theorem c8_drain_on_termination_witness :
    (SelCrawler.run envC1 fileC1 12).isSome = true ∧
    ∃ n : Nat, ((SelCrawler.runTrace envC1 fileC1 12).getLast?).map Prod.fst =
      some (SelCrawler.SelEv.drainEv n) :=
  ⟨by decide, c8_drain_on_termination envC1 fileC1 12 (by decide)⟩

/-- C1: the startup of selenium_crawler2.py computes the checkpoint and
sets `current_page = checkpoint + 1` (last conjunct, for every sink
state), but performs no navigation to that page: for a sink with
checkpoint 4 and a six-page source, the fresh run starts scraping the
displayed page 1 and labels the pages 5 through 10 — it does not fetch
only pages 5 and 6 as the claim states. -/
theorem c1_resume_navigation_bug :
    (get_last_page fileC1 = 4 ∧
      (SelCrawler.initSt fileC1).page = 5 ∧
      SelCrawler.sitePages (SelCrawler.runTrace envC1 fileC1 12) = [1, 2, 3, 4, 5, 6] ∧
      SelCrawler.cursorPages (SelCrawler.runTrace envC1 fileC1 12) = [5, 6, 7, 8, 9, 10] ∧
      ¬ SelCrawler.sitePages (SelCrawler.runTrace envC1 fileC1 12) = [5, 6]) ∧
    ∀ f : CsvFile, (SelCrawler.initSt f).page = get_last_page f + 1 :=
  ⟨by decide, fun _ => rfl⟩

theorem wait_go_allblocked :
    ∀ (n clk : Nat),
      (SelCrawler.wait_go (fun _ => true) clk n).1 = false ∧
      ((SelCrawler.wait_go (fun _ => true) clk n).2.2).countP SelCrawler.isCheckEv = n := by
  intro n
  induction n with
  | zero => intro clk; exact ⟨rfl, rfl⟩
  | succ n ih =>
    intro clk
    refine ⟨?_, ?_⟩
    · simpa [SelCrawler.wait_go] using (ih (clk + 1)).1
    · simp [SelCrawler.wait_go, List.countP_cons, SelCrawler.isCheckEv, (ih (clk + 1)).2]

/-- C3 counterexample: with data left at checkpoint 4, a six-page source
and a detector that is Blocked for the whole first CAPTCHA wait and Clear
afterwards, the wait times out — yet the session does not terminate: the
controller proceeds to further page fetches after the TimedOut, refuting
"treats this as fatal ... attempts no further page". -/
theorem c3_timeout_not_fatal_cex :
    SelCrawler.timedOutCount (SelCrawler.runTrace envC3a fileC1 12) = 1 ∧
    ¬ SelCrawler.fetchCountTr (SelCrawler.afterFirstTimeout
        (SelCrawler.runTrace envC3a fileC1 12)) = 0 := by decide

/-- C3 (amended): the wait polls the detector every 5 time-units, 36 times
over the 180-unit budget, and returns TimedOut when none of them is Clear
(first two conjuncts).  A TimedOut during page processing is not by
itself fatal — see the counterexample — but when the block persists, the
session ends after the following navigation attempt's wait also times
out, with no page fetched in between and the drain flush as the last
action (third conjunct, for every source and sink); when being blocked
begins after some progress, the drain flush persists the buffered batch
(fourth conjunct: one page of ten records was fetched before the block,
no fetch follows the first TimedOut, and the final event flushes those
ten records). -/
theorem c3_timeout_persistent_block_drains :
    (SelCrawler.POLL_INTERVAL * SelCrawler.WAIT_POLLS = SelCrawler.CAPTCHA_WAIT_TIME) ∧
    (∀ clk : Nat,
      (SelCrawler.wait_go (fun _ => true) clk SelCrawler.WAIT_POLLS).1 = false ∧
      ((SelCrawler.wait_go (fun _ => true) clk SelCrawler.WAIT_POLLS).2.2).countP
        SelCrawler.isCheckEv = SelCrawler.WAIT_POLLS) ∧
    (∀ (pr : Nat → List Rec) (tot : Nat) (f : CsvFile) (fuel : Nat),
      SelCrawler.timedOutCount
        (SelCrawler.runTrace (envAllBlocked pr tot) f (fuel + 1)) = 2 ∧
      SelCrawler.fetchCountTr
        (SelCrawler.runTrace (envAllBlocked pr tot) f (fuel + 1)) = 0 ∧
      ((SelCrawler.runTrace (envAllBlocked pr tot) f (fuel + 1)).getLast?).map
        Prod.fst = some (SelCrawler.SelEv.drainEv 0)) ∧
    (SelCrawler.timedOutCount (SelCrawler.runTrace envC3c fileC1 12) = 2 ∧
      SelCrawler.sitePages (SelCrawler.runTrace envC3c fileC1 12) = [1] ∧
      SelCrawler.fetchCountTr (SelCrawler.afterFirstTimeout
        (SelCrawler.runTrace envC3c fileC1 12)) = 0 ∧
      ((SelCrawler.runTrace envC3c fileC1 12).getLast?).map Prod.fst =
        some (SelCrawler.SelEv.drainEv 10)) :=
  ⟨rfl, fun clk => wait_go_allblocked SelCrawler.WAIT_POLLS clk,
    fun _ _ _ _ => ⟨rfl, rfl, rfl⟩, by decide⟩

theorem wait_events_kind (b : Nat → Bool) :
    ∀ (n clk : Nat) (e : SelCrawler.SelEv),
      e ∈ (SelCrawler.wait_go b clk n).2.2 → SelCrawler.isFlushLike e = false := by
  intro n
  induction n with
  | zero =>
    intro clk e he
    simp only [SelCrawler.wait_go] at he
    rw [List.mem_singleton] at he
    subst he
    rfl
  | succ n ih =>
    intro clk e he
    simp only [SelCrawler.wait_go] at he
    by_cases hb : b clk = true
    · rw [if_pos hb] at he
      rcases List.mem_cons.mp he with rfl | he
      · rfl
      · exact ih (clk + 1) e he
    · rw [if_neg hb] at he
      rcases List.mem_cons.mp he with rfl | he
      · rfl
      · rw [List.mem_singleton] at he
        subst he
        rfl

theorem process_events_kind (env : SelCrawler.Env) (c si clk : Nat)
    (e : SelCrawler.SelEv)
    (he : e ∈ (SelCrawler.process_page env c si clk).2.2) :
    SelCrawler.isFlushLike e = false := by
  simp only [SelCrawler.process_page] at he
  by_cases hb : env.blocked clk = true
  · rw [if_pos hb] at he
    by_cases hw : (SelCrawler.wait_go env.blocked (clk + 1) SelCrawler.WAIT_POLLS).1 = true
    · rw [if_pos hw] at he
      rcases List.mem_cons.mp he with rfl | he
      · rfl
      · rcases List.mem_append.mp he with he | he
        · exact wait_events_kind env.blocked _ _ e he
        · rw [List.mem_singleton] at he
          subst he
          rfl
    · rw [if_neg hw] at he
      rcases List.mem_cons.mp he with rfl | he
      · rfl
      · exact wait_events_kind env.blocked _ _ e he
  · rw [if_neg hb] at he
    rcases List.mem_cons.mp he with rfl | he
    · rfl
    · rw [List.mem_singleton] at he
      subst he
      rfl

theorem reset_events_kind (env : SelCrawler.Env) (clk : Nat)
    (e : SelCrawler.SelEv) (he : e ∈ (SelCrawler.reset_search env clk).2.2) :
    SelCrawler.isFlushLike e = false := by
  simp only [SelCrawler.reset_search] at he
  by_cases hb : env.blocked clk = true
  · rw [if_pos hb] at he
    by_cases hb2 : env.blocked (clk + 1) = true
    · rw [if_pos hb2] at he
      rcases List.mem_cons.mp he with rfl | he
      · rfl
      · rcases List.mem_cons.mp he with rfl | he
        · rfl
        · exact wait_events_kind env.blocked _ _ e he
    · rw [if_neg hb2] at he
      rcases List.mem_cons.mp he with rfl | he
      · rfl
      · rw [List.mem_singleton] at he
        subst he
        rfl
  · rw [if_neg hb] at he
    rw [List.mem_singleton] at he
    subst he
    rfl

theorem fetchRows_len_le (env : SelCrawler.Env) (B : Nat)
    (hB : ∀ p, (env.pageRecs p).length ≤ B) (si c : Nat) :
    (SelCrawler.fetchRows env si c).length ≤ B := by
  unfold SelCrawler.fetchRows
  split
  · simpa [List.length_map] using hB si
  · simp

theorem process_len_le (env : SelCrawler.Env) (B : Nat)
    (hB : ∀ p, (env.pageRecs p).length ≤ B) (c si clk : Nat) :
    (SelCrawler.process_page env c si clk).1.length ≤ B := by
  unfold SelCrawler.process_page
  by_cases hb : env.blocked clk
  · cases hw : (SelCrawler.wait_go env.blocked (clk + 1) SelCrawler.WAIT_POLLS).1 with
    | true => simpa [hb, hw] using fetchRows_len_le env B hB si c
    | false => simp [hb, hw]
  · simpa [hb] using fetchRows_len_le env B hB si c

theorem tagB_good (B m : Nat) (es : List SelCrawler.SelEv)
    (hm : m ≤ SelCrawler.BATCH_SIZE * 10 + B)
    (hes : ∀ e ∈ es, SelCrawler.isFlushLike e = false) :
    ∀ p ∈ SelCrawler.tagB m es,
      p.2 ≤ SelCrawler.BATCH_SIZE * 10 + B ∧
      (SelCrawler.isFlushLike p.1 = true → p.2 = 0) := by
  intro p hp
  unfold SelCrawler.tagB at hp
  rcases List.mem_map.mp hp with ⟨e, he, rfl⟩
  refine ⟨hm, fun hfl => ?_⟩
  rw [hes e he] at hfl
  simp at hfl

theorem navPhase_good (env : SelCrawler.Env) (B : Nat) (s : SelCrawler.St)
    (hm : s.batch.length ≤ SelCrawler.BATCH_SIZE * 10 + B) :
    (∀ p ∈ SelCrawler.resTrace (SelCrawler.navPhase env s),
       p.2 ≤ SelCrawler.BATCH_SIZE * 10 + B ∧
       (SelCrawler.isFlushLike p.1 = true → p.2 = 0)) ∧
    (SelCrawler.resSt (SelCrawler.navPhase env s)).batch = s.batch := by
  simp only [SelCrawler.navPhase]
  by_cases hb : env.blocked s.clk = true
  · rw [if_pos hb]
    by_cases hb2 : env.blocked (s.clk + 1) = true
    · rw [if_pos hb2]
      by_cases hw :
          (SelCrawler.wait_go env.blocked (s.clk + 2) SelCrawler.WAIT_POLLS).1 = true
      · rw [if_pos hw]
        refine ⟨tagB_good B _ _ hm ?_, rfl⟩
        intro e he
        rcases List.mem_cons.mp he with rfl | he
        · rfl
        · rcases List.mem_cons.mp he with rfl | he
          · rfl
          · exact wait_events_kind env.blocked _ _ e he
      · rw [if_neg hw]
        refine ⟨tagB_good B _ _ hm ?_, rfl⟩
        intro e he
        rcases List.mem_cons.mp he with rfl | he
        · rfl
        · rcases List.mem_cons.mp he with rfl | he
          · rfl
          · exact wait_events_kind env.blocked _ _ e he
    · rw [if_neg hb2]
      refine ⟨tagB_good B _ _ hm ?_, rfl⟩
      intro e he
      rcases List.mem_cons.mp he with rfl | he
      · rfl
      · rw [List.mem_singleton] at he
        subst he
        rfl
  · rw [if_neg hb]
    by_cases hd : s.disp ≥ env.totalPages
    · rw [if_pos hd]
      refine ⟨tagB_good B _ _ hm ?_, rfl⟩
      intro e he
      rw [List.mem_singleton] at he
      subst he
      rfl
    · rw [if_neg hd]
      refine ⟨tagB_good B _ _ hm ?_, rfl⟩
      intro e he
      rcases List.mem_cons.mp he with rfl | he
      · rfl
      · rw [List.mem_singleton] at he
        subst he
        rfl

theorem afterFlushChk_good (env : SelCrawler.Env) (B : Nat) (s : SelCrawler.St)
    (hm : s.batch.length ≤ SelCrawler.BATCH_SIZE * 10 + B) :
    (∀ p ∈ SelCrawler.resTrace (SelCrawler.afterFlushChk env s),
       p.2 ≤ SelCrawler.BATCH_SIZE * 10 + B ∧
       (SelCrawler.isFlushLike p.1 = true → p.2 = 0)) ∧
    (SelCrawler.resSt (SelCrawler.afterFlushChk env s)).batch = s.batch := by
  simp only [SelCrawler.afterFlushChk]
  by_cases ht : (s.termFlag || env.termO s.tchk) = true
  · rw [if_pos ht]
    exact ⟨by intro p hp; simp [SelCrawler.resTrace] at hp, rfl⟩
  · rw [if_neg ht]
    exact navPhase_good env B {s with tchk := s.tchk + 1} hm

theorem resTrace_prependT (tr : List (SelCrawler.SelEv × Nat)) (r : SelCrawler.StepRes) :
    SelCrawler.resTrace (SelCrawler.prependT tr r) = tr ++ SelCrawler.resTrace r := by
  cases r <;> rfl

theorem resSt_prependT (tr : List (SelCrawler.SelEv × Nat)) (r : SelCrawler.StepRes) :
    SelCrawler.resSt (SelCrawler.prependT tr r) = SelCrawler.resSt r := by
  cases r <;> rfl

theorem flushPhase_good (env : SelCrawler.Env) (B : Nat) (s : SelCrawler.St) :
    (∀ p ∈ SelCrawler.resTrace (SelCrawler.flushPhase env s),
       p.2 ≤ SelCrawler.BATCH_SIZE * 10 + B ∧
       (SelCrawler.isFlushLike p.1 = true → p.2 = 0)) ∧
    (SelCrawler.resSt (SelCrawler.flushPhase env s)).batch.length <
      SelCrawler.BATCH_SIZE * 10 := by
  simp only [SelCrawler.flushPhase]
  by_cases hc : (decide (SelCrawler.BATCH_SIZE * 10 ≤ s.batch.length) || s.termFlag ||
      env.termO s.tchk) = true
  · rw [if_pos hc]
    have h2 := afterFlushChk_good env B
      {s with
        batch := []
        file := (save_to_csv s.batch env.sinkOk env.backupOk s.file s.backups).1
        backups := (save_to_csv s.batch env.sinkOk env.backupOk s.file s.backups).2.1
        tchk := s.tchk + 1} (by simp)
    constructor
    · intro p hp
      rw [resTrace_prependT] at hp
      rcases List.mem_append.mp hp with hp | hp
      · rw [List.mem_singleton] at hp
        subst hp
        exact ⟨by omega, fun _ => rfl⟩
      · exact h2.1 p hp
    · rw [resSt_prependT, h2.2]
      show List.length ([] : List Rec) < SelCrawler.BATCH_SIZE * 10
      decide
  · rw [if_neg hc]
    have hlen : s.batch.length < SelCrawler.BATCH_SIZE * 10 := by
      by_contra hx
      apply hc
      simp only [Bool.or_eq_true, decide_eq_true_eq]
      exact Or.inl (Or.inl (by omega))
    have h2 := afterFlushChk_good env B {s with tchk := s.tchk + 1}
      (le_trans (le_of_lt hlen) (by omega))
    refine ⟨h2.1, ?_⟩
    rw [h2.2]
    exact hlen

theorem casesPhase_good (env : SelCrawler.Env) (B : Nat) (s : SelCrawler.St)
    (cs : List Rec)
    (hm : s.batch.length < SelCrawler.BATCH_SIZE * 10)
    (hc : cs.length ≤ B) :
    (∀ p ∈ SelCrawler.midTrace (SelCrawler.casesPhase env s cs),
       p.2 ≤ SelCrawler.BATCH_SIZE * 10 + B ∧
       (SelCrawler.isFlushLike p.1 = true → p.2 = 0)) ∧
    (SelCrawler.midIsCont (SelCrawler.casesPhase env s cs) = true →
      (SelCrawler.midSt (SelCrawler.casesPhase env s cs)).batch.length <
        SelCrawler.BATCH_SIZE * 10) := by
  have hresets : ∀ e ∈ (SelCrawler.reset_search env s.clk).2.2 ++
      [SelCrawler.SelEv.resetEv true], SelCrawler.isFlushLike e = false := by
    intro e he
    rcases List.mem_append.mp he with he | he
    · exact reset_events_kind env _ e he
    · rw [List.mem_singleton] at he
      subst he
      rfl
  have hresetf : ∀ e ∈ (SelCrawler.reset_search env s.clk).2.2 ++
      [SelCrawler.SelEv.resetEv false], SelCrawler.isFlushLike e = false := by
    intro e he
    rcases List.mem_append.mp he with he | he
    · exact reset_events_kind env _ e he
    · rw [List.mem_singleton] at he
      subst he
      rfl
  simp only [SelCrawler.casesPhase]
  by_cases he : cs.isEmpty = true
  · rw [if_pos he]
    by_cases h2 : s.consec + 1 ≥ 2
    · rw [if_pos h2]
      by_cases hr : (SelCrawler.reset_search env s.clk).1 = true
      · rw [if_pos hr]
        by_cases hp : s.page ≤ env.totalPages
        · rw [if_pos hp]
          exact ⟨tagB_good B _ _ (by omega) hresets, fun _ => hm⟩
        · rw [if_neg hp]
          exact ⟨tagB_good B _ _ (by omega) hresets, fun _ => hm⟩
      · rw [if_neg hr]
        refine ⟨tagB_good B _ _ (by omega) hresetf, ?_⟩
        intro hcont
        simp [SelCrawler.midIsCont] at hcont
    · rw [if_neg h2]
      refine ⟨?_, ?_⟩
      · intro p hp0
        simp [SelCrawler.midTrace] at hp0
      · intro hcont
        simp [SelCrawler.midIsCont] at hcont
  · rw [if_neg he]
    refine ⟨?_, ?_⟩
    · intro p hp0
      rcases List.mem_singleton.mp hp0 with rfl
      refine ⟨?_, ?_⟩
      · simp only [List.length_append]
        omega
      · intro hfl
        simp [SelCrawler.isFlushLike] at hfl
    · intro hcont
      simp [SelCrawler.midIsCont] at hcont

theorem step_good (env : SelCrawler.Env) (B : Nat)
    (hB : ∀ p, (env.pageRecs p).length ≤ B) (s : SelCrawler.St)
    (hm : s.batch.length < SelCrawler.BATCH_SIZE * 10) :
    (∀ p ∈ SelCrawler.resTrace (SelCrawler.step env s),
       p.2 ≤ SelCrawler.BATCH_SIZE * 10 + B ∧
       (SelCrawler.isFlushLike p.1 = true → p.2 = 0)) ∧
    (SelCrawler.resSt (SelCrawler.step env s)).batch.length <
      SelCrawler.BATCH_SIZE * 10 := by
  simp only [SelCrawler.step]
  by_cases ht : (s.termFlag || env.termO s.tchk) = true
  · rw [if_pos ht]
    exact ⟨by intro p hp; simp [SelCrawler.resTrace] at hp, hm⟩
  · rw [if_neg ht]
    have hcp := casesPhase_good env B
      {s with
        clk := (SelCrawler.process_page env s.page s.disp s.clk).2.1
        tchk := s.tchk + 1}
      (SelCrawler.process_page env s.page s.disp s.clk).1 hm
      (process_len_le env B hB s.page s.disp s.clk)
    have hpre : ∀ p ∈ SelCrawler.tagB s.batch.length
        (SelCrawler.process_page env s.page s.disp s.clk).2.2,
        p.2 ≤ SelCrawler.BATCH_SIZE * 10 + B ∧
        (SelCrawler.isFlushLike p.1 = true → p.2 = 0) :=
      tagB_good B _ _ (by omega)
        (fun e hee => process_events_kind env s.page s.disp s.clk e hee)
    by_cases hic : SelCrawler.midIsCont (SelCrawler.casesPhase env
        {s with
          clk := (SelCrawler.process_page env s.page s.disp s.clk).2.1
          tchk := s.tchk + 1}
        (SelCrawler.process_page env s.page s.disp s.clk).1) = true
    · rw [if_pos hic]
      refine ⟨?_, hcp.2 hic⟩
      intro p hp
      rcases List.mem_append.mp hp with hp | hp
      · exact hpre p hp
      · exact hcp.1 p hp
    · rw [if_neg hic]
      have hfg := flushPhase_good env B (SelCrawler.midSt (SelCrawler.casesPhase env
        {s with
          clk := (SelCrawler.process_page env s.page s.disp s.clk).2.1
          tchk := s.tchk + 1}
        (SelCrawler.process_page env s.page s.disp s.clk).1))
      refine ⟨?_, ?_⟩
      · intro p hp
        rw [resTrace_prependT] at hp
        rcases List.mem_append.mp hp with hp | hp
        · rcases List.mem_append.mp hp with hp | hp
          · exact hpre p hp
          · exact hcp.1 p hp
        · exact hfg.1 p hp
      · rw [resSt_prependT]
        exact hfg.2

theorem loop_good (env : SelCrawler.Env) (B : Nat)
    (hB : ∀ p, (env.pageRecs p).length ≤ B) :
    ∀ (fuel : Nat) (s : SelCrawler.St),
      s.batch.length < SelCrawler.BATCH_SIZE * 10 →
      ∀ p ∈ (SelCrawler.loop env fuel s).2,
        p.2 ≤ SelCrawler.BATCH_SIZE * 10 + B ∧
        (SelCrawler.isFlushLike p.1 = true → p.2 = 0) := by
  intro fuel
  induction fuel with
  | zero =>
    intro s hm p hp
    simp [SelCrawler.loop] at hp
  | succ fuel ih =>
    intro s hm p hp
    have hs := step_good env B hB s hm
    simp only [SelCrawler.loop] at hp
    cases hstep : SelCrawler.step env s with
    | exit s2 tr =>
      rw [hstep] at hp hs
      exact hs.1 p hp
    | cont s2 tr =>
      rw [hstep] at hp hs
      rcases List.mem_append.mp hp with hp | hp
      · exact hs.1 p hp
      · exact ih s2 hs.2 p hp

/-- C7: along every crawl session, every observed in-memory buffer size —
each trace element is paired with the batch size at that point, including
right after each page's records are appended — stays at or below the
flush threshold `BATCH_SIZE * 10` plus one page's worth of records, and
the recorded size at every flush event (batch flush or drain flush) is 0:
the buffer is emptied the moment it is flushed. -/
theorem c7_batch_bound (env : SelCrawler.Env) (B : Nat)
    (hB : ∀ p, (env.pageRecs p).length ≤ B) (f : CsvFile) (fuel : Nat) :
    ∀ p ∈ SelCrawler.runTrace env f fuel,
      p.2 ≤ SelCrawler.BATCH_SIZE * 10 + B ∧
      (SelCrawler.isFlushLike p.1 = true → p.2 = 0) := by
  intro p hp
  have hloop := loop_good env B hB fuel (SelCrawler.initSt f)
    (by show List.length ([] : List Rec) < SelCrawler.BATCH_SIZE * 10; decide)
  unfold SelCrawler.runTrace SelCrawler.run at hp
  rcases hl : SelCrawler.loop env fuel (SelCrawler.initSt f) with ⟨os, tr⟩
  rw [hl] at hp hloop
  cases os with
  | none => simp at hp
  | some s =>
    by_cases hb : s.batch.isEmpty = true
    · simp only [hb, if_true] at hp
      rcases List.mem_append.mp hp with hp | hp
      · exact hloop p hp
      · rw [List.mem_singleton] at hp
        subst hp
        exact ⟨by omega, fun _ => rfl⟩
    · simp only [hb, Bool.false_eq_true, if_false] at hp
      rcases List.mem_append.mp hp with hp | hp
      · exact hloop p hp
      · rw [List.mem_singleton] at hp
        subst hp
        exact ⟨by omega, fun _ => rfl⟩

/-- C7 witness: in the clean six-page run, the first trace element
respects the bound, with the page size bound 10 discharged for the
concrete source. -/
theorem c7_batch_bound_witness :
    (∀ p : Nat, (envC1.pageRecs p).length ≤ 10) ∧
    ((SelCrawler.runTrace envC1 fileC1 12).getD 0 (SelCrawler.SelEv.solved, 0)) ∈
      SelCrawler.runTrace envC1 fileC1 12 ∧
    ((SelCrawler.runTrace envC1 fileC1 12).getD 0 (SelCrawler.SelEv.solved, 0)).2 ≤
      SelCrawler.BATCH_SIZE * 10 + 10 :=
  ⟨fun _ => by simp [envC1, cleanRecs],
    by decide,
    (c7_batch_bound envC1 10 (fun _ => by simp [envC1, cleanRecs]) fileC1 12
      ((SelCrawler.runTrace envC1 fileC1 12).getD 0 (SelCrawler.SelEv.solved, 0))
      (by decide)).1⟩

theorem le_maxPage (rows : List Rec) : ∀ r ∈ rows, r.page ≤ maxPage rows := by
  induction rows with
  | nil =>
    intro r hr
    exact absurd hr (List.not_mem_nil r)
  | cons x xs ih =>
    intro r hr
    rcases List.mem_cons.mp hr with rfl | hr
    · exact le_max_left _ _
    · exact le_trans (ih r hr) (le_max_right _ _)

theorem maxPage_le (rows : List Rec) (P : Nat) (h : ∀ r ∈ rows, r.page ≤ P) :
    maxPage rows ≤ P := by
  induction rows with
  | nil => exact Nat.zero_le P
  | cons x xs ih =>
    show max x.page (maxPage xs) ≤ P
    exact max_le (h x (List.mem_cons_self x xs))
      (ih (fun r hr => h r (List.mem_cons_of_mem x hr)))

theorem glp_append_le (f : CsvFile) (data : List Rec) (P : Nat)
    (hf : get_last_page f ≤ P) (hd : ∀ r ∈ data, r.page ≤ P) :
    get_last_page (appendFile f data) ≤ P := by
  cases f with
  | absent =>
    show get_last_page (CsvFile.table true data) ≤ P
    simp only [get_last_page]
    split_ifs with hcond
    · exact maxPage_le data P hd
    · exact Nat.zero_le P
  | unreadable => exact Nat.zero_le P
  | table hp rows =>
    show get_last_page (CsvFile.table hp (rows ++ data)) ≤ P
    simp only [get_last_page]
    split_ifs with hcond
    · refine maxPage_le _ P ?_
      intro r hr
      rcases (Bool.and_eq_true _ _).mp hcond with ⟨hne, hptrue⟩
      rcases List.mem_append.mp hr with hr | hr
      · have hmp : maxPage rows ≤ P := by
          cases hrows : rows.isEmpty with
          | true =>
            rw [List.isEmpty_iff] at hrows
            subst hrows
            exact absurd hr (List.not_mem_nil r)
          | false =>
            simp [get_last_page, hrows, hptrue] at hf
            exact hf
        exact le_trans (le_maxPage rows r hr) hmp
      · exact hd r hr
    · exact Nat.zero_le P

theorem save_glp_le (data : List Rec) (so bo : Bool) (f : CsvFile)
    (bks : List (List Rec)) (P : Nat) (hf : get_last_page f ≤ P)
    (hd : ∀ r ∈ data, r.page ≤ P) :
    get_last_page ((save_to_csv data so bo f bks).1) ≤ P := by
  unfold save_to_csv
  by_cases he : data.isEmpty = true
  · rw [if_pos he]
    exact hf
  · rw [if_neg he]
    by_cases hso : so = true
    · rw [if_pos hso]
      exact glp_append_le f data P hf hd
    · rw [if_neg hso]
      by_cases hbo : bo = true
      · rw [if_pos hbo]
        exact hf
      · rw [if_neg hbo]
        exact hf

theorem fetchRowsT_page (env : SelTest.Env) (p : Nat) :
    ∀ r ∈ SelTest.fetchRows env p, r.page = p := by
  intro r hr
  unfold SelTest.fetchRows at hr
  split at hr
  · rcases List.mem_map.mp hr with ⟨x, hx, rfl⟩
    rfl
  · exact absurd hr (List.not_mem_nil r)

theorem processT_nr_eq (env : SelTest.Env)
    (hNR : ∀ n d, env.capO n = SelTest.CapOutcome.capSolved (some d) →
      env.navO n = true) (n cp : Nat) :
    SelTest.process_page env n cp = (SelTest.fetchRows env cp, cp) ∨
    SelTest.process_page env n cp = ([], cp) := by
  cases hcap : env.capO n with
  | noCap => exact Or.inl (by simp [SelTest.process_page, hcap])
  | capFail => exact Or.inr (by simp [SelTest.process_page, hcap])
  | capSolved od =>
    cases od with
    | none => exact Or.inl (by simp [SelTest.process_page, hcap])
    | some d =>
      have hnav := hNR n d hcap
      exact Or.inl (by simp [SelTest.process_page, hcap, hnav])

theorem afterT_good (env : SelTest.Env) (s : SelTest.St) (obs : List (Nat × Nat))
    (hglp : get_last_page s.file ≤ s.page)
    (hbatch : ∀ r ∈ s.batch, r.page ≤ s.page)
    (hobs : ∀ ob ∈ obs, ob.1 ≤ ob.2) :
    (∀ ob ∈ SelTest.tObs (SelTest.afterT env s obs), ob.1 ≤ ob.2) ∧
    get_last_page (SelTest.tSt (SelTest.afterT env s obs)).file ≤
      (SelTest.tSt (SelTest.afterT env s obs)).page ∧
    ∀ r ∈ (SelTest.tSt (SelTest.afterT env s obs)).batch,
      r.page ≤ (SelTest.tSt (SelTest.afterT env s obs)).page := by
  simp only [SelTest.afterT]
  by_cases ht : (s.termFlag || env.termO s.tchk) = true
  · rw [if_pos ht]
    exact ⟨hobs, hglp, hbatch⟩
  · rw [if_neg ht]
    by_cases hp : s.page ≥ env.totalPages
    · rw [if_pos hp]
      exact ⟨hobs, hglp, hbatch⟩
    · rw [if_neg hp]
      refine ⟨?_, le_trans hglp (Nat.le_succ _), ?_⟩
      · intro ob hob
        rcases List.mem_append.mp hob with hob | hob
        · exact hobs ob hob
        · rw [List.mem_singleton] at hob
          subst hob
          exact le_trans hglp (Nat.le_succ _)
      · intro r hr
        exact le_trans (hbatch r hr) (Nat.le_succ _)

theorem flushT_good (env : SelTest.Env) (s : SelTest.St) (obs : List (Nat × Nat))
    (hglp : get_last_page s.file ≤ s.page)
    (hbatch : ∀ r ∈ s.batch, r.page ≤ s.page)
    (hobs : ∀ ob ∈ obs, ob.1 ≤ ob.2) :
    (∀ ob ∈ SelTest.tObs (SelTest.flushT env s obs), ob.1 ≤ ob.2) ∧
    get_last_page (SelTest.tSt (SelTest.flushT env s obs)).file ≤
      (SelTest.tSt (SelTest.flushT env s obs)).page ∧
    ∀ r ∈ (SelTest.tSt (SelTest.flushT env s obs)).batch,
      r.page ≤ (SelTest.tSt (SelTest.flushT env s obs)).page := by
  simp only [SelTest.flushT]
  by_cases hcnd : (decide (SelTest.BATCH_SIZE * 10 ≤ s.batch.length) || s.termFlag ||
      env.termO s.tchk) = true
  · rw [if_pos hcnd]
    have hglp2 : get_last_page
        ((save_to_csv s.batch env.sinkOk env.backupOk s.file s.backups).1) ≤ s.page :=
      save_glp_le s.batch env.sinkOk env.backupOk s.file s.backups s.page hglp hbatch
    refine afterT_good env
      {s with
        batch := []
        file := (save_to_csv s.batch env.sinkOk env.backupOk s.file s.backups).1
        backups := (save_to_csv s.batch env.sinkOk env.backupOk s.file s.backups).2.1
        tchk := s.tchk + 1}
      (obs ++
        [(get_last_page
            ((save_to_csv s.batch env.sinkOk env.backupOk s.file s.backups).1), s.page)])
      hglp2 (fun r hr => absurd hr (List.not_mem_nil r)) ?_
    intro ob hob
    rcases List.mem_append.mp hob with hob | hob
    · exact hobs ob hob
    · rw [List.mem_singleton] at hob
      subst hob
      exact hglp2
  · rw [if_neg hcnd]
    exact afterT_good env {s with tchk := s.tchk + 1} obs hglp hbatch hobs

theorem stepT_good (env : SelTest.Env)
    (hNR : ∀ n d, env.capO n = SelTest.CapOutcome.capSolved (some d) →
      env.navO n = true)
    (s : SelTest.St)
    (hglp : get_last_page s.file ≤ s.page)
    (hbatch : ∀ r ∈ s.batch, r.page ≤ s.page) :
    (∀ ob ∈ SelTest.tObs (SelTest.stepT env s), ob.1 ≤ ob.2) ∧
    get_last_page (SelTest.tSt (SelTest.stepT env s)).file ≤
      (SelTest.tSt (SelTest.stepT env s)).page ∧
    ∀ r ∈ (SelTest.tSt (SelTest.stepT env s)).batch,
      r.page ≤ (SelTest.tSt (SelTest.stepT env s)).page := by
  simp only [SelTest.stepT]
  by_cases ht : (s.termFlag || env.termO s.tchk) = true
  · rw [if_pos ht]
    exact ⟨by intro ob hob; simp [SelTest.tObs] at hob, hglp, hbatch⟩
  · rw [if_neg ht]
    rcases processT_nr_eq env hNR s.iter s.page with hpr | hpr
    · simp only [hpr]
      by_cases hemp : (SelTest.fetchRows env s.page).isEmpty = true
      · rw [if_pos hemp]
        by_cases hres : env.resetO s.iter = true
        · rw [if_pos hres]
          refine flushT_good env {s with tchk := s.tchk + 1}
            [(get_last_page s.file, s.page)] hglp hbatch ?_
          intro ob hob
          rcases List.mem_singleton.mp hob with rfl
          exact hglp
        · rw [if_neg hres]
          by_cases hpg : s.page ≥ env.totalPages
          · rw [if_pos hpg]
            refine ⟨?_, hglp, hbatch⟩
            intro ob hob
            rcases List.mem_singleton.mp hob with rfl
            exact hglp
          · rw [if_neg hpg]
            refine ⟨?_, le_trans hglp (Nat.le_succ _), ?_⟩
            · intro ob hob
              rcases List.mem_append.mp hob with hob | hob
              · rcases List.mem_singleton.mp hob with rfl
                exact hglp
              · rcases List.mem_singleton.mp hob with rfl
                exact le_trans hglp (Nat.le_succ _)
            · intro r hr
              exact le_trans (hbatch r hr) (Nat.le_succ _)
      · rw [if_neg hemp]
        refine flushT_good env
          {s with
            batch := s.batch ++ SelTest.fetchRows env s.page
            tchk := s.tchk + 1}
          [(get_last_page s.file, s.page)] hglp ?_ ?_
        · intro r hr
          rcases List.mem_append.mp hr with hr | hr
          · exact hbatch r hr
          · exact le_of_eq (fetchRowsT_page env s.page r hr)
        · intro ob hob
          rcases List.mem_singleton.mp hob with rfl
          exact hglp
    · simp only [hpr]
      rw [if_pos (show (List.isEmpty ([] : List Rec)) = true from rfl)]
      by_cases hres : env.resetO s.iter = true
      · rw [if_pos hres]
        refine flushT_good env {s with tchk := s.tchk + 1}
          [(get_last_page s.file, s.page)] hglp hbatch ?_
        intro ob hob
        rcases List.mem_singleton.mp hob with rfl
        exact hglp
      · rw [if_neg hres]
        by_cases hpg : s.page ≥ env.totalPages
        · rw [if_pos hpg]
          refine ⟨?_, hglp, hbatch⟩
          intro ob hob
          rcases List.mem_singleton.mp hob with rfl
          exact hglp
        · rw [if_neg hpg]
          refine ⟨?_, le_trans hglp (Nat.le_succ _), ?_⟩
          · intro ob hob
            rcases List.mem_append.mp hob with hob | hob
            · rcases List.mem_singleton.mp hob with rfl
              exact hglp
            · rcases List.mem_singleton.mp hob with rfl
              exact le_trans hglp (Nat.le_succ _)
          · intro r hr
            exact le_trans (hbatch r hr) (Nat.le_succ _)

theorem loopT_good (env : SelTest.Env)
    (hNR : ∀ n d, env.capO n = SelTest.CapOutcome.capSolved (some d) →
      env.navO n = true) :
    ∀ (fuel : Nat) (s : SelTest.St),
      get_last_page s.file ≤ s.page →
      (∀ r ∈ s.batch, r.page ≤ s.page) →
      (∀ ob ∈ (SelTest.loopT env fuel s).2, ob.1 ≤ ob.2) ∧
      (∀ s2, (SelTest.loopT env fuel s).1 = some s2 →
        get_last_page s2.file ≤ s2.page ∧ ∀ r ∈ s2.batch, r.page ≤ s2.page) := by
  intro fuel
  induction fuel with
  | zero =>
    intro s h1 h2
    refine ⟨?_, ?_⟩
    · intro ob hob
      simp [SelTest.loopT] at hob
    · intro s2 hs2
      simp [SelTest.loopT] at hs2
  | succ fuel ih =>
    intro s h1 h2
    have hs := stepT_good env hNR s h1 h2
    simp only [SelTest.loopT]
    cases hstep : SelTest.stepT env s with
    | exit s2 obs =>
      rw [hstep] at hs
      refine ⟨fun ob hob => hs.1 ob hob, ?_⟩
      intro s3 hs3
      have : s2 = s3 := by
        simpa using hs3
      subst this
      exact ⟨hs.2.1, hs.2.2⟩
    | cont s2 obs =>
      rw [hstep] at hs
      have hrec := ih s2 hs.2.1 hs.2.2
      refine ⟨?_, ?_⟩
      · intro ob hob
        rcases List.mem_append.mp hob with hob | hob
        · exact hs.1 ob hob
        · exact hrec.1 ob hob
      · intro s3 hs3
        exact hrec.2 s3 hs3

/-- C6 (amended): in every session in which no block-induced rollback
occurs — whenever a solved CAPTCHA detects a different displayed page, the
navigation back to the cursor succeeds — the durable checkpoint (the
highest Page among rows flushed to the sink) never exceeds the
controller's currentPage at any reachable state, the initial state and
every flush and advance included.  The rollback itself violates this: see
the counterexample. -/
theorem c6_checkpoint_le_cursor_no_rollback (env : SelTest.Env)
    (hNR : ∀ n d, env.capO n = SelTest.CapOutcome.capSolved (some d) →
      env.navO n = true)
    (f : CsvFile) (fuel : Nat) :
    ∀ ob ∈ SelTest.runObs env f fuel, ob.1 ≤ ob.2 := by
  intro ob hob
  have hinit : get_last_page f ≤ (SelTest.initSt f).page := by
    simp only [SelTest.initSt]
    by_cases h : get_last_page f > 0
    · rw [if_pos h]
      omega
    · rw [if_neg h]
      omega
  have hloop := loopT_good env hNR fuel (SelTest.initSt f) hinit
    (fun r hr => absurd hr (List.not_mem_nil r))
  simp only [SelTest.runObs, SelTest.runT] at hob
  rcases hl : SelTest.loopT env fuel (SelTest.initSt f) with ⟨os, obs⟩
  rw [hl] at hob hloop
  cases os with
  | none => simp at hob
  | some s =>
    have hsInv := hloop.2 s rfl
    by_cases hb : s.batch.isEmpty = true
    · simp only [hb, if_true] at hob
      rcases List.mem_cons.mp hob with rfl | hob
      · exact hinit
      · exact hloop.1 ob hob
    · simp only [hb, Bool.false_eq_true, if_false] at hob
      rcases List.mem_cons.mp hob with rfl | hob
      · exact hinit
      · rcases List.mem_append.mp hob with hob | hob
        · exact hloop.1 ob hob
        · rcases List.mem_singleton.mp hob with rfl
          exact save_glp_le s.batch env.sinkOk env.backupOk s.file s.backups
            s.page hsInv.1 hsInv.2

/-- C6 counterexample: a reachable state of the selenium_test.py session
violates `Checkpoint ≤ currentPage`: after pages 1 and 2 are flushed
(checkpoint 2) a CAPTCHA recovery detects displayed page 1 and the
navigation back fails, so the code rolls `current_page` back to 1 while
the checkpoint stays 2. -/
theorem c6_rollback_breaks_invariant_cex :
    (2, 1) ∈ SelTest.runObs envC6 CsvFile.absent 8 ∧
    ∃ ob ∈ SelTest.runObs envC6 CsvFile.absent 8, ¬ ob.1 ≤ ob.2 := by decide

/-- C6 witness: the rollback-free three-page session keeps the checkpoint
at or below the cursor at its first recorded state. -/
theorem c6_checkpoint_le_cursor_no_rollback_witness :
    (∀ n d, envC6W.capO n = SelTest.CapOutcome.capSolved (some d) →
      envC6W.navO n = true) ∧
    ((SelTest.runObs envC6W CsvFile.absent 8).getD 0 (0, 0)) ∈
      SelTest.runObs envC6W CsvFile.absent 8 ∧
    ((SelTest.runObs envC6W CsvFile.absent 8).getD 0 (0, 0)).1 ≤
      ((SelTest.runObs envC6W CsvFile.absent 8).getD 0 (0, 0)).2 :=
  ⟨fun n d h => by simp [envC6W] at h,
    by decide,
    c6_checkpoint_le_cursor_no_rollback envC6W
      (fun n d h => by simp [envC6W] at h) CsvFile.absent 8
      ((SelTest.runObs envC6W CsvFile.absent 8).getD 0 (0, 0)) (by decide)⟩
